import Mathlib

/-!
Verification of the query-dispatch protocol of the DBFP repository
(`src/whm_test1/original version.py`, class `NLDataQuery`).

Python strings are modelled as `List Char`; the remote chat-completion
round trip is modelled by an explicit `RemoteOutcome` describing what the
HTTP layer produced.  All definitions are direct translations of the
corresponding Python code.
-/

namespace DBFP

/-- Python `str.strip` whitespace test (ASCII whitespace fragment). -/
def isPySpace (c : Char) : Bool :=
  c = ' ' || c = '\t' || c = '\n' || c = '\r' || c = '\x0b' || c = '\x0c'

/-- Strip leading whitespace (left half of Python `str.strip`). -/
def stripLeftL (l : List Char) : List Char := l.dropWhile isPySpace

/-- Strip trailing whitespace (right half of Python `str.strip`). -/
def stripRightL (l : List Char) : List Char := l.rdropWhile isPySpace

/-- Python `str.strip`: remove whitespace from both ends. -/
def stripL (l : List Char) : List Char := stripRightL (stripLeftL l)

/-- The tag checked by `content.startswith("CODE|")`. -/
def CODE_TAG : List Char := "CODE|".data

/-- The tag checked by `content.startswith("EXPLAIN|")`. -/
def EXPLAIN_TAG : List Char := "EXPLAIN|".data

/-- The query-type string `"code"` returned by `call_deepseek`. -/
def CODE_KIND : List Char := "code".data

/-- The query-type string `"explain"` returned by `call_deepseek`. -/
def EXPLAIN_KIND : List Char := "explain".data

/-- Parsed JSON body of the chat-completion response: `choices` is `none`
when the `"choices"` key is absent; each element is the extracted
`choices[i]["message"]["content"]` string, `none` when that extraction
would raise (missing key / non-string). -/
structure DSBody where
  choices : Option (List (Option (List Char)))


/-- The HTTP response object: `requests.post` result.  `body` is the
outcome of `response.json()` (`.error` = malformed JSON raises).  The
source never inspects `status`. -/
structure HttpResp where
  status : Nat
  body : Except (List Char) DSBody


/-- What the remote round trip produced: either `requests.post` itself
raised (network error / timeout), or a response object came back. -/
inductive RemoteOutcome where
  | netError (msg : List Char)
  | httpResponse (r : HttpResp)


/-- Tag parsing of the first choice's text, from `call_deepseek`
(`original version.py` lines 110-119): strip the raw content, then
dispatch on the `CODE|` / `EXPLAIN|` tags with the untagged text treated
as code (legacy fallback). -/
def parseTagged (raw : List Char) : Option (List Char) × Option (List Char) :=
  if CODE_TAG.isPrefixOf (stripL raw) then
    (some CODE_KIND, some (stripL ((stripL raw).drop 5)))
  else if EXPLAIN_TAG.isPrefixOf (stripL raw) then
    (some EXPLAIN_KIND, some (stripL ((stripL raw).drop 8)))
  else
    (some CODE_KIND, some (stripL raw))

/-- `NLDataQuery.call_deepseek` (`original version.py` lines 36-125),
as a function of the remote outcome.  Every raised exception is caught by
the `except Exception` handler and becomes `(None, None)`; a body without
a non-empty `choices` list also yields `(None, None)`.  The HTTP status
code is never examined. -/
def call_deepseek (o : RemoteOutcome) : Option (List Char) × Option (List Char) :=
  match o with
  | .netError _ => (none, none)
  | .httpResponse r =>
    match r.body with
    | .error _ => (none, none)
    | .ok b =>
      match b.choices with
      | some cs =>
        if 0 < cs.length then
          match cs.head? with
          | some (some raw) => parseTagged raw
          | _ => (none, none)
        else (none, none)
      | none => (none, none)

/-- A 200-status response whose single choice carries `raw` as
`message.content`. -/
def mkChoiceResp (raw : List Char) : RemoteOutcome :=
  .httpResponse ⟨200, .ok ⟨some [some raw]⟩⟩

/-! ## The execution model

`NLDataQuery.execute_code` runs `exec(f"result = {code}", globals(), local_vars)`
with `local_vars = {"ak": ak, "pd": pd, "datetime": datetime}`.  Name
resolution inside that `exec` therefore reaches the supplied locals, the
whole module-global dictionary of `original version.py`, and Python's
builtins.  We model the evaluated fragment as single expressions built
from identifiers, literals and zero-argument calls.  Raised exceptions
are split by class: the handler is `except Exception`, so an ordinary
`Exception` (NameError, SyntaxError, TypeError) is caught and turned
into the error string, while a `BaseException` outside the `Exception`
hierarchy — the `SystemExit` raised by the site builtins `exit()` and
`quit()`, or a `KeyboardInterrupt` — passes through `execute_code` to
its caller. -/

/-- Values of the modelled Python fragment.  `pobj` stands for an opaque
object bound in the execution namespace (a module, class or function). -/
inductive PyVal where
  | pnone
  | pint (v : Nat)
  | pstr (s : List Char)
  | pobj (name : List Char)
  | pdataframe (cols : List (List Char)) (rows : List (List (List Char)))
deriving DecidableEq

/-- Python `str()` of a modelled value (scalar display branch). -/
def pyStr : PyVal → List Char
  | .pnone => "None".data
  | .pint v => (toString v).data
  | .pstr s => s
  | .pobj name => "<object ".data ++ name ++ ">".data
  | .pdataframe _ _ => "<dataframe>".data

/-- Single-expression fragment accepted by the modelled `exec`:
identifiers, literals, `None`, and a zero-argument call `n()` of a named
object (enough to express `exit()`). -/
inductive PyExpr where
  | name (n : List Char)
  | intlit (v : Nat)
  | strlit (s : List Char)
  | nonelit
  | callName (n : List Char)
deriving DecidableEq

/-- A raised Python exception, split by what the handler catches:
`exc` is an ordinary `Exception` (caught by `except Exception`);
`baseExc` is a `BaseException` outside the `Exception` hierarchy
(`SystemExit`, `KeyboardInterrupt`), which that handler does not catch. -/
inductive PyErr where
  | exc (msg : List Char)
  | baseExc (msg : List Char)
deriving DecidableEq

def isIdentStart (c : Char) : Bool := c.isAlpha || c = '_'

def isIdentChar (c : Char) : Bool := c.isAlphanum || c = '_'

/-- Message of the SyntaxError raised when the spliced source is not a
well-formed expression of the modelled fragment. -/
def BAD_EXPR_MSG : List Char := "invalid syntax".data

def digitsToNat (s : List Char) : Nat := s.foldl (fun a c => a * 10 + (c.toNat - 48)) 0

/-- Parse the code string into the modelled expression fragment:
an identifier, a decimal integer literal, a double-quoted string literal,
`None`, or a zero-argument call `n()`; anything outside the fragment
raises SyntaxError inside `exec`. -/
def parsePyExpr (s : List Char) : Except (List Char) PyExpr :=
  match s with
  | [] => .error BAD_EXPR_MSG
  | c :: rest =>
    if c = '"' then
      if !rest.isEmpty && rest.getLast? == some '"'
          && rest.dropLast.all (fun x => !(x == '"')) then
        .ok (.strlit rest.dropLast)
      else .error BAD_EXPR_MSG
    else if c.isDigit then
      if rest.all Char.isDigit then .ok (.intlit (digitsToNat (c :: rest)))
      else .error BAD_EXPR_MSG
    else if isIdentStart c then
      if rest.all isIdentChar then
        if c :: rest = "None".data then .ok .nonelit else .ok (.name (c :: rest))
      else if rest.dropWhile isIdentChar = "()".data then
        .ok (.callName (c :: rest.takeWhile isIdentChar))
      else .error BAD_EXPR_MSG
    else .error BAD_EXPR_MSG

/-- The names passed explicitly as `local_vars` in `execute_code`
(`original version.py` line 130). -/
def exec_local_names : List (List Char) :=
  ["ak".data, "pd".data, "datetime".data]

/-- The module-level names of `original version.py` (its import statements
and top-level definitions), all reachable because `execute_code` passes
`globals()` to `exec`. -/
def module_global_names : List (List Char) :=
  ["os".data, "ak".data, "requests".data, "datetime".data, "pd".data,
   "load_dotenv".data, "Dict".data, "Any".data, "Optional".data, "Tuple".data,
   "Console".data, "Panel".data, "Table".data, "Markdown".data, "box".data,
   "console".data, "NLDataQuery".data, "main".data]

/-- Representative builtins: `exec` installs `__builtins__` into its global
namespace, so builtin name resolution succeeds as well; `exit` and `quit`
are the site builtins whose call raises `SystemExit`. -/
def builtin_names : List (List Char) :=
  ["__import__".data, "open".data, "getattr".data, "len".data, "str".data,
   "print".data, "exit".data, "quit".data]

/-- Name resolution of the `exec` call in `execute_code`: locals, then the
module globals, then builtins.  Every resolvable name is bound to an
opaque object carrying its own name. -/
def exec_namespace (n : List Char) : Option PyVal :=
  if exec_local_names.contains n then some (.pobj n)
  else if module_global_names.contains n then some (.pobj n)
  else if builtin_names.contains n then some (.pobj n)
  else none

def NAME_ERR_HEAD : List Char := "NameError: name ".data

def NAME_ERR_TAIL : List Char := " is not defined".data

/-- Message of the `SystemExit` raised by calling the site builtins
`exit` or `quit`. -/
def SYSTEM_EXIT_MSG : List Char := "SystemExit".data

/-- Message of the TypeError-style `Exception` raised by the remaining
zero-argument calls of the modelled fragment. -/
def NOT_CALLABLE_MSG : List Char := " object call raised".data

/-- Evaluate a parsed expression in an environment.  An unbound
identifier raises NameError (an ordinary `Exception`).  A zero-argument
call of `exit`/`quit` raises `SystemExit`, which is a `BaseException`
outside the `Exception` hierarchy; `print()` returns `None`; every other
zero-argument call of a bound object is modelled as raising an ordinary
`Exception` (a module or most builtins called this way raise TypeError). -/
def evalPyExpr (env : List Char → Option PyVal) : PyExpr → Except PyErr PyVal
  | .name n =>
    match env n with
    | some v => .ok v
    | none => .error (.exc (NAME_ERR_HEAD ++ n ++ NAME_ERR_TAIL))
  | .intlit v => .ok (.pint v)
  | .strlit s => .ok (.pstr s)
  | .nonelit => .ok .pnone
  | .callName n =>
    match env n with
    | none => .error (.exc (NAME_ERR_HEAD ++ n ++ NAME_ERR_TAIL))
    | some (.pobj m) =>
      if m = "exit".data ∨ m = "quit".data then .error (.baseExc SYSTEM_EXIT_MSG)
      else if m = "print".data then .ok .pnone
      else .error (.exc (m ++ NOT_CALLABLE_MSG))
    | some _ => .error (.exc NOT_CALLABLE_MSG)

/-- The body of the `try` block of `execute_code`: parse the spliced
source (a parse failure is a SyntaxError, an ordinary `Exception`) and
evaluate it in the `exec` namespace. -/
def execRun (code : List Char) : Except PyErr PyVal :=
  match parsePyExpr code with
  | .error e => .error (.exc e)
  | .ok ex => evalPyExpr exec_namespace ex

/-- The error string `f"执行出错: {str(e)}"` returned on failure
(`original version.py` line 134). -/
def EXEC_ERR_HEAD : List Char := "执行出错: ".data

/-- `NLDataQuery.execute_code` (`original version.py` lines 127-134):
on success return the computed value; the handler is `except Exception`,
so an ordinary `Exception` becomes the formatted error string, while a
`BaseException` outside the `Exception` hierarchy (`SystemExit` from
`exit()`) propagates to the caller — modelled by the `.error` result. -/
def execute_code (code : List Char) : Except (List Char) PyVal :=
  match execRun code with
  | .ok v => .ok v
  | .error (.exc e) => .ok (.pstr (EXEC_ERR_HEAD ++ e))
  | .error (.baseExc e) => .error e

/-! ## The dispatcher (`NLDataQuery.query`) and `save_result` -/

/-- The mutable instance state touched by `query`/`save_result`:
`self.last_result` (a Python value, `pnone` models Python `None`) and
`self.last_query`. -/
structure QState where
  last_result : PyVal
  last_query : Option (List Char)
deriving DecidableEq

/-- How a `query` call ends for the user: the failure panel, the
explanation panel, the execution-error panel, the dataframe table panel,
the stringified scalar panel — or `raised`, when a `BaseException`
escaping `execute_code` propagates out of `query` itself, so nothing is
rendered. -/
inductive Display where
  | queryFailed
  | answer (text : List Char)
  | execError (msg : List Char)
  | tableResult (cols : List (List Char)) (rows : List (List (List Char)))
  | scalarResult (text : List Char)
  | raised (msg : List Char)
deriving DecidableEq

/-- Result of one `query` call: the updated instance state, what was
displayed, and whether `execute_code` was invoked. -/
structure QueryOutcome where
  state : QState
  display : Display
  executed : Bool
deriving DecidableEq

/-- Python's substring test `sub in s`: `sub` occurs contiguously in `s`. -/
def containsSub (sub : List Char) : List Char → Bool
  | [] => sub.isEmpty
  | c :: t => sub.isPrefixOf (c :: t) || containsSub sub t

/-- The substring tested by `isinstance(result, str) and "出错" in result`
(`original version.py` line 240). -/
def ERR_MARK : List Char := "出错".data

/-- `NLDataQuery.query` (`original version.py` lines 203-260).  The guard
`if not query_type or not content` treats both `None` and the empty string
as failure; the explain branch resets `last_result` and returns before any
evaluation; the code branch stores the result and query, then reclassifies
a string result containing `"出错"` as an execution error.  If
`execute_code` lets a `BaseException` escape, the assignments to
`last_result`/`last_query` never run and the exception propagates out of
`query` (the `raised` outcome). -/
def query (st : QState) (remote : RemoteOutcome) (nl : List Char) : QueryOutcome :=
  match call_deepseek remote with
  | (some t, some c) =>
    if t = [] ∨ c = [] then ⟨st, .queryFailed, false⟩
    else if t = EXPLAIN_KIND then ⟨⟨.pnone, st.last_query⟩, .answer c, false⟩
    else
      match execute_code c with
      | .error m => ⟨st, .raised m, true⟩
      | .ok (.pstr s) =>
        if containsSub ERR_MARK s then ⟨⟨.pnone, some nl⟩, .execError s, true⟩
        else ⟨⟨.pstr s, some nl⟩, .scalarResult s, true⟩
      | .ok (.pdataframe cols rows) =>
        ⟨⟨.pdataframe cols rows, some nl⟩, .tableResult cols rows, true⟩
      | .ok v => ⟨⟨v, some nl⟩, .scalarResult (pyStr v), true⟩
  | _ => ⟨st, .queryFailed, false⟩

/-- What `save_result` does, abstracting the filename glue. -/
inductive SaveOutcome where
  | noData
  | wroteCsv (cols : List (List Char)) (rows : List (List (List Char)))
  | wroteText (text : List Char)
deriving DecidableEq

/-- `NLDataQuery.save_result` (`original version.py` lines 163-201):
with `last_result is None` it reports that there is nothing to save and
writes no file; a DataFrame is written as CSV, anything else as text. -/
def save_result (st : QState) : SaveOutcome :=
  match st.last_result with
  | .pnone => .noData
  | .pdataframe cols rows => .wroteCsv cols rows
  | v => .wroteText (pyStr v)

/-- The state of a freshly constructed `NLDataQuery`. -/
def initState : QState := ⟨.pnone, none⟩

/-! ## Lemmas about Python `str.strip` -/

lemma stripLeftL_append_of_keep (tag X : List Char)
    (h1 : tag.dropWhile isPySpace = tag) (h2 : tag ≠ []) :
    stripLeftL (tag ++ X) = tag ++ X := by
  unfold stripLeftL
  rw [List.dropWhile_append]
  have hne : (tag.dropWhile isPySpace).isEmpty = false := by
    rw [h1]
    exact List.isEmpty_eq_false.mpr h2
  rw [hne, h1]
  rfl

lemma stripRightL_append_of_keep (tag X : List Char)
    (h3 : tag.rdropWhile isPySpace = tag) :
    stripRightL (tag ++ X) = tag ++ stripRightL X := by
  unfold stripRightL
  unfold List.rdropWhile at h3 ⊢
  rw [List.reverse_append, List.dropWhile_append]
  by_cases hx : (X.reverse.dropWhile isPySpace).isEmpty
  · rw [hx]
    simp only [if_true]
    have hx' : X.reverse.dropWhile isPySpace = [] := List.isEmpty_iff.mp hx
    rw [hx']
    have h3' : tag.reverse.dropWhile isPySpace = tag.reverse := by
      rw [List.reverse_eq_iff] at h3
      exact h3.symm ▸ rfl
    rw [h3']
    simp
  · have hxf : (X.reverse.dropWhile isPySpace).isEmpty = false := by
      simpa using hx
    rw [hxf]
    simp only [Bool.false_eq_true, if_false, List.reverse_append]
    simp

lemma stripL_append_of_keep (tag X : List Char)
    (h1 : tag.dropWhile isPySpace = tag) (h3 : tag.rdropWhile isPySpace = tag)
    (h2 : tag ≠ []) :
    stripL (tag ++ X) = tag ++ stripRightL X := by
  unfold stripL
  rw [stripLeftL_append_of_keep tag X h1 h2, stripRightL_append_of_keep tag X h3]

lemma stripRightL_cons (a : Char) (t : List Char) :
    stripRightL (a :: t) =
      if stripRightL t = [] then (if isPySpace a then [] else [a])
      else a :: stripRightL t := by
  unfold stripRightL List.rdropWhile
  rw [show (a :: t : List Char).reverse = t.reverse ++ [a] by simp, List.dropWhile_append]
  by_cases h : t.reverse.dropWhile isPySpace = []
  · by_cases ha : isPySpace a <;> simp [h, ha, List.dropWhile_cons]
  · have hf : (t.reverse.dropWhile isPySpace).isEmpty = false := by simpa using h
    simp [hf, h]

lemma stripLeft_stripRight_comm (X : List Char) :
    stripLeftL (stripRightL X) = stripRightL (stripLeftL X) := by
  induction X with
  | nil => rfl
  | cons a t ih =>
    rw [stripRightL_cons]
    by_cases ha : isPySpace a
    · have hL : stripLeftL (a :: t) = stripLeftL t := by
        simp [stripLeftL, List.dropWhile_cons, ha]
      rw [hL]
      by_cases h : stripRightL t = []
      · rw [if_pos h, if_pos ha]
        rw [h] at ih
        have : stripRightL (stripLeftL t) = [] := by
          rw [← ih]; rfl
        rw [this]
        rfl
      · rw [if_neg h]
        have : stripLeftL (a :: stripRightL t) = stripLeftL (stripRightL t) := by
          simp [stripLeftL, List.dropWhile_cons, ha]
        rw [this, ih]
    · have hL : stripLeftL (a :: t) = a :: t := by
        simp [stripLeftL, List.dropWhile_cons, ha]
      rw [hL, ← stripRightL_cons]
      by_cases h : stripRightL t = []
      · rw [stripRightL_cons, if_pos h, if_neg ha]
        simp [stripLeftL, List.dropWhile_cons, ha]
      · rw [stripRightL_cons, if_neg h]
        simp [stripLeftL, List.dropWhile_cons, ha]

lemma stripRightL_idem (X : List Char) : stripRightL (stripRightL X) = stripRightL X :=
  List.rdropWhile_idempotent _ _

lemma stripL_stripRightL (X : List Char) : stripL (stripRightL X) = stripL X := by
  unfold stripL
  rw [stripLeft_stripRight_comm]
  exact stripRightL_idem _

lemma code_tag_on_append (Y : List Char) :
    CODE_TAG.isPrefixOf (CODE_TAG ++ Y) = true := by
  rw [List.isPrefixOf_iff_prefix]
  exact ⟨Y, rfl⟩

lemma explain_tag_on_append (Y : List Char) :
    EXPLAIN_TAG.isPrefixOf (EXPLAIN_TAG ++ Y) = true := by
  rw [List.isPrefixOf_iff_prefix]
  exact ⟨Y, rfl⟩

lemma code_tag_not_on_explain (Y : List Char) :
    CODE_TAG.isPrefixOf (EXPLAIN_TAG ++ Y) = false := by
  rw [Bool.eq_false_iff]
  intro h
  rw [List.isPrefixOf_iff_prefix] at h
  obtain ⟨t, ht⟩ := h
  have hh := congrArg List.head? ht
  rw [show CODE_TAG = 'C' :: "ODE|".data from rfl,
      show EXPLAIN_TAG = 'E' :: "XPLAIN|".data from rfl] at hh
  simp at hh

lemma call_deepseek_mkChoiceResp (raw : List Char) :
    call_deepseek (mkChoiceResp raw) = parseTagged raw := rfl

lemma parseTagged_code_append (X : List Char) :
    parseTagged (CODE_TAG ++ X) = (some CODE_KIND, some (stripL X)) := by
  have h1 := stripL_append_of_keep CODE_TAG X (by decide) (by decide) (by decide)
  unfold parseTagged
  rw [h1, code_tag_on_append]
  simp only [if_true]
  rw [show (5 : Nat) = CODE_TAG.length from rfl, List.drop_left, stripL_stripRightL]

lemma parseTagged_explain_append (X : List Char) :
    parseTagged (EXPLAIN_TAG ++ X) = (some EXPLAIN_KIND, some (stripL X)) := by
  have h1 := stripL_append_of_keep EXPLAIN_TAG X (by decide) (by decide) (by decide)
  unfold parseTagged
  rw [h1, code_tag_not_on_explain, explain_tag_on_append]
  simp only [Bool.false_eq_true, if_false, if_true]
  rw [show (8 : Nat) = EXPLAIN_TAG.length from rfl, List.drop_left, stripL_stripRightL]

/-! ## Reduction lemmas for `query` -/

lemma query_eq_failed_left (st : QState) (o : RemoteOutcome) (nl : List Char)
    (hcd : (call_deepseek o).1 = none) :
    query st o nl = ⟨st, .queryFailed, false⟩ := by
  unfold query
  rcases hq : call_deepseek o with ⟨qt, c⟩
  rw [hq] at hcd
  simp only at hcd
  subst hcd
  cases c <;> rfl

lemma query_eq_failed_right (st : QState) (o : RemoteOutcome) (nl : List Char)
    (hcd : (call_deepseek o).2 = none) :
    query st o nl = ⟨st, .queryFailed, false⟩ := by
  unfold query
  rcases hq : call_deepseek o with ⟨qt, c⟩
  rw [hq] at hcd
  simp only at hcd
  subst hcd
  cases qt <;> rfl

lemma query_eq_of_some (st : QState) (o : RemoteOutcome) (nl t cc : List Char)
    (hcd : call_deepseek o = (some t, some cc)) :
    query st o nl =
      (if t = [] ∨ cc = [] then ⟨st, .queryFailed, false⟩
       else if t = EXPLAIN_KIND then
         ⟨⟨.pnone, st.last_query⟩, .answer cc, false⟩
       else
         match execute_code cc with
         | .error m => ⟨st, .raised m, true⟩
         | .ok (.pstr s) =>
           if containsSub ERR_MARK s then ⟨⟨.pnone, some nl⟩, .execError s, true⟩
           else ⟨⟨.pstr s, some nl⟩, .scalarResult s, true⟩
         | .ok (.pdataframe cols rows) =>
           ⟨⟨.pdataframe cols rows, some nl⟩, .tableResult cols rows, true⟩
         | .ok v => ⟨⟨v, some nl⟩, .scalarResult (pyStr v), true⟩) := by
  unfold query
  rw [hcd]

/-! ## Claim theorems -/

/-- C5: for every response text of the form `CODE|X`, `call_deepseek`
classifies it as kind `code` with payload `X` stripped of surrounding
whitespace. -/
theorem C5_code_tag_payload_trimmed (X : List Char) :
    call_deepseek (mkChoiceResp (CODE_TAG ++ X)) =
      (some CODE_KIND, some (stripL X)) := by
  rw [call_deepseek_mkChoiceResp, parseTagged_code_append]

/-- C6 counterexample: the claim says the payload of an `EXPLAIN|X`
response is exactly `X`, but for `X = " hi "` the code strips the
surrounding whitespace and returns `"hi"`. -/
theorem C6_payload_not_exact :
    call_deepseek (mkChoiceResp "EXPLAIN| hi ".data) =
      (some EXPLAIN_KIND, some "hi".data) ∧
    "hi".data ≠ " hi ".data := by decide

/-- C6 amended: for every response text of the form `EXPLAIN|X`,
`call_deepseek` classifies it as kind `explain` with payload `X` stripped
of surrounding whitespace (not exactly `X`). -/
theorem C6_explain_payload_trimmed (X : List Char) :
    call_deepseek (mkChoiceResp (EXPLAIN_TAG ++ X)) =
      (some EXPLAIN_KIND, some (stripL X)) := by
  rw [call_deepseek_mkChoiceResp, parseTagged_explain_append]

/-- C7 counterexample: the claim says an untagged response text is
returned in full as the payload, but `" abc "` starts with neither tag
and yields the stripped payload `"abc"`, not the full text. -/
theorem C7_payload_not_full_text :
    CODE_TAG.isPrefixOf " abc ".data = false ∧
    EXPLAIN_TAG.isPrefixOf " abc ".data = false ∧
    call_deepseek (mkChoiceResp " abc ".data) ≠
      (some CODE_KIND, some " abc ".data) ∧
    call_deepseek (mkChoiceResp " abc ".data) =
      (some CODE_KIND, some "abc".data) := by decide

/-- C7 amended: for every response text whose stripped form starts with
neither `CODE|` nor `EXPLAIN|`, `call_deepseek` returns kind `code` with
the whitespace-stripped full text as payload (legacy fallback). -/
theorem C7_fallback_stripped_text (R : List Char)
    (h1 : CODE_TAG.isPrefixOf (stripL R) = false)
    (h2 : EXPLAIN_TAG.isPrefixOf (stripL R) = false) :
    call_deepseek (mkChoiceResp R) = (some CODE_KIND, some (stripL R)) := by
  rw [call_deepseek_mkChoiceResp]
  unfold parseTagged
  rw [h1, h2]
  simp

/-- Witness for C7 amended at the concrete untagged response `"abc"`. -/
theorem C7_fallback_stripped_text_witness :
    CODE_TAG.isPrefixOf (stripL "abc".data) = false ∧
    EXPLAIN_TAG.isPrefixOf (stripL "abc".data) = false ∧
    call_deepseek (mkChoiceResp "abc".data) =
      (some CODE_KIND, some (stripL "abc".data)) :=
  ⟨by decide, by decide,
    C7_fallback_stripped_text "abc".data (by decide) (by decide)⟩

/-- C3 counterexample: a non-2xx response is claimed to yield
`(None, None)`, but the code never inspects the status code: an HTTP 500
response carrying a well-formed choices payload is parsed normally. -/
theorem C3_status_never_checked :
    call_deepseek (.httpResponse ⟨500, .ok ⟨some [some "CODE|x".data]⟩⟩) ≠
      (none, none) ∧
    call_deepseek (.httpResponse ⟨500, .ok ⟨some [some "CODE|x".data]⟩⟩) =
      (some CODE_KIND, some "x".data) := by decide

/-- C3 amended: when the remote call raises, the body is malformed JSON,
or the body has no non-empty `choices` list, `call_deepseek` returns
`(None, None)` and `query` reports the could-not-understand panel,
leaves the state untouched, and never invokes `execute_code`.  (The HTTP
status code itself is never inspected.) -/
theorem C3_failure_gives_unrecognized (o : RemoteOutcome)
    (h : (∃ m, o = .netError m) ∨
         (∃ s e, o = .httpResponse ⟨s, .error e⟩) ∨
         (∃ s, o = .httpResponse ⟨s, .ok ⟨none⟩⟩) ∨
         (∃ s, o = .httpResponse ⟨s, .ok ⟨some []⟩⟩)) :
    call_deepseek o = (none, none) ∧
    ∀ st nl, query st o nl = ⟨st, .queryFailed, false⟩ := by
  obtain ⟨m, rfl⟩ | ⟨s, e, rfl⟩ | ⟨s, rfl⟩ | ⟨s, rfl⟩ := h <;>
    exact ⟨rfl, fun st nl => rfl⟩

/-- Witness for C3 amended at a concrete network error. -/
theorem C3_failure_gives_unrecognized_witness :
    call_deepseek (.netError "timeout".data) = (none, none) ∧
    query initState (.netError "timeout".data) "q".data =
      ⟨initState, .queryFailed, false⟩ := by
  have h := C3_failure_gives_unrecognized (.netError "timeout".data)
    (Or.inl ⟨"timeout".data, rfl⟩)
  exact ⟨h.1, h.2 initState "q".data⟩

/-- C4 counterexample: `call_deepseek` itself can produce a Code or
Explain response with an empty payload, from a bare `CODE|` or
`EXPLAIN|` response text. -/
theorem C4_empty_payload_possible :
    call_deepseek (mkChoiceResp "CODE|".data) = (some CODE_KIND, some []) ∧
    call_deepseek (mkChoiceResp "EXPLAIN|".data) =
      (some EXPLAIN_KIND, some []) := by decide

/-- C4 amended: the non-empty-payload invariant holds only for the
responses `query` acts on: whenever `query` gets past the
could-not-understand guard, both the kind and the payload returned by
`call_deepseek` are non-empty strings. -/
theorem C4_dispatched_payload_nonempty (st : QState) (o : RemoteOutcome)
    (nl : List Char) (h : (query st o nl).display ≠ .queryFailed) :
    ∃ k c, call_deepseek o = (some k, some c) ∧ k ≠ [] ∧ c ≠ [] := by
  rcases hcd : call_deepseek o with ⟨qt, c⟩
  cases qt with
  | none =>
    refine absurd ?_ h
    rw [query_eq_failed_left st o nl (by rw [hcd])]
  | some t =>
    cases c with
    | none =>
      refine absurd ?_ h
      rw [query_eq_failed_right st o nl (by rw [hcd])]
    | some cc =>
      by_cases hg : t = [] ∨ cc = []
      · refine absurd ?_ h
        rw [query_eq_of_some st o nl t cc hcd, if_pos hg]
      · exact ⟨t, cc, rfl, (not_or.mp hg).1, (not_or.mp hg).2⟩

/-- Witness for C4 amended at a concrete explain response. -/
theorem C4_dispatched_payload_nonempty_witness :
    (query initState (mkChoiceResp "EXPLAIN|hi".data) "q".data).display ≠
      .queryFailed ∧
    ∃ k c, call_deepseek (mkChoiceResp "EXPLAIN|hi".data) = (some k, some c) ∧
      k ≠ [] ∧ c ≠ [] :=
  ⟨by decide, C4_dispatched_payload_nonempty initState
    (mkChoiceResp "EXPLAIN|hi".data) "q".data (by decide)⟩

lemma query_explain (st : QState) (o : RemoteOutcome) (nl cc : List Char)
    (hcd : call_deepseek o = (some EXPLAIN_KIND, some cc)) (hc : cc ≠ []) :
    query st o nl = ⟨⟨.pnone, st.last_query⟩, .answer cc, false⟩ := by
  rw [query_eq_of_some st o nl EXPLAIN_KIND cc hcd,
      if_neg (by push_neg; exact ⟨by decide, hc⟩), if_pos rfl]

lemma query_code_result (st : QState) (o : RemoteOutcome) (nl t cc : List Char)
    (hcd : call_deepseek o = (some t, some cc))
    (ht : t ≠ []) (hc : cc ≠ []) (he : t ≠ EXPLAIN_KIND) :
    query st o nl =
      (match execute_code cc with
       | .error m => ⟨st, .raised m, true⟩
       | .ok (.pstr s) =>
         if containsSub ERR_MARK s then ⟨⟨.pnone, some nl⟩, .execError s, true⟩
         else ⟨⟨.pstr s, some nl⟩, .scalarResult s, true⟩
       | .ok (.pdataframe cols rows) =>
         ⟨⟨.pdataframe cols rows, some nl⟩, .tableResult cols rows, true⟩
       | .ok v => ⟨⟨v, some nl⟩, .scalarResult (pyStr v), true⟩) := by
  rw [query_eq_of_some st o nl t cc hcd,
      if_neg (by push_neg; exact ⟨ht, hc⟩), if_neg he]

lemma query_code_err (st : QState) (o : RemoteOutcome) (nl t cc s : List Char)
    (hcd : call_deepseek o = (some t, some cc))
    (ht : t ≠ []) (hc : cc ≠ []) (he : t ≠ EXPLAIN_KIND)
    (hex : execute_code cc = .ok (.pstr s)) (hm : containsSub ERR_MARK s = true) :
    query st o nl = ⟨⟨.pnone, some nl⟩, .execError s, true⟩ := by
  rw [query_code_result st o nl t cc hcd ht hc he, hex]
  exact if_pos hm

/-- Every `query` call lands in one of six shapes: the failure panel with
untouched state, the explain panel clearing `last_result`, the error panel
clearing `last_result`, a table/scalar result stored in the state, or a
propagating `BaseException` with untouched state. -/
lemma query_shape (st : QState) (o : RemoteOutcome) (nl : List Char) :
    query st o nl = ⟨st, .queryFailed, false⟩ ∨
    (∃ P, query st o nl = ⟨⟨.pnone, st.last_query⟩, .answer P, false⟩) ∨
    (∃ s, query st o nl = ⟨⟨.pnone, some nl⟩, .execError s, true⟩) ∨
    (∃ cols rows, query st o nl =
        ⟨⟨.pdataframe cols rows, some nl⟩, .tableResult cols rows, true⟩) ∨
    (∃ v txt, query st o nl = ⟨⟨v, some nl⟩, .scalarResult txt, true⟩) ∨
    (∃ m, query st o nl = ⟨st, .raised m, true⟩) := by
  rcases hcd : call_deepseek o with ⟨qt, c⟩
  cases qt with
  | none => exact Or.inl (query_eq_failed_left st o nl (by rw [hcd]))
  | some t =>
    cases c with
    | none => exact Or.inl (query_eq_failed_right st o nl (by rw [hcd]))
    | some cc =>
      by_cases ht : t = []
      · exact Or.inl (by rw [query_eq_of_some st o nl t cc hcd, if_pos (Or.inl ht)])
      by_cases hc : cc = []
      · exact Or.inl (by rw [query_eq_of_some st o nl t cc hcd, if_pos (Or.inr hc)])
      by_cases he : t = EXPLAIN_KIND
      · subst he
        exact Or.inr (Or.inl ⟨cc, query_explain st o nl cc hcd hc⟩)
      · have hq := query_code_result st o nl t cc hcd ht hc he
        cases hex : execute_code cc with
        | error m =>
          rw [hex] at hq
          exact Or.inr (Or.inr (Or.inr (Or.inr (Or.inr ⟨m, hq⟩))))
        | ok v =>
          rw [hex] at hq
          cases v with
          | pstr s =>
            by_cases hm : containsSub ERR_MARK s
            · refine Or.inr (Or.inr (Or.inl ⟨s, ?_⟩))
              rw [hq]
              exact if_pos hm
            · refine Or.inr (Or.inr (Or.inr (Or.inr (Or.inl ⟨.pstr s, s, ?_⟩))))
              rw [hq]
              exact if_neg hm
          | pdataframe cols rows =>
            exact Or.inr (Or.inr (Or.inr (Or.inl ⟨cols, rows, hq⟩)))
          | pnone =>
            exact Or.inr (Or.inr (Or.inr (Or.inr (Or.inl ⟨.pnone, pyStr .pnone, hq⟩))))
          | pint v =>
            exact Or.inr (Or.inr (Or.inr (Or.inr (Or.inl ⟨.pint v, pyStr (.pint v), hq⟩))))
          | pobj name =>
            exact Or.inr (Or.inr (Or.inr (Or.inr (Or.inl
              ⟨.pobj name, pyStr (.pobj name), hq⟩))))

/-- C8 counterexample: `call_deepseek` can yield kind Explain with empty
payload (bare `EXPLAIN|`), and `query` then shows the failure panel
instead of returning that payload for display. -/
theorem C8_empty_explain_not_displayed :
    call_deepseek (mkChoiceResp "EXPLAIN|".data) = (some EXPLAIN_KIND, some []) ∧
    (query initState (mkChoiceResp "EXPLAIN|".data) "q".data).display =
      .queryFailed ∧
    (query initState (mkChoiceResp "EXPLAIN|".data) "q".data).display ≠
      .answer [] := by decide

/-- C8 amended: whenever `call_deepseek` yields kind Explain with payload
`P`, `query` never invokes `execute_code`, and whenever `P` is non-empty
it displays `P` unchanged (clearing `last_result`). -/
theorem C8_explain_never_executes (st : QState) (o : RemoteOutcome)
    (nl P : List Char)
    (hcd : call_deepseek o = (some EXPLAIN_KIND, some P)) :
    (query st o nl).executed = false ∧
    (P ≠ [] → query st o nl = ⟨⟨.pnone, st.last_query⟩, .answer P, false⟩) := by
  by_cases hp : P = []
  · subst hp
    have hq : query st o nl = ⟨st, .queryFailed, false⟩ := by
      rw [query_eq_of_some st o nl EXPLAIN_KIND [] hcd, if_pos (Or.inr rfl)]
    rw [hq]
    exact ⟨rfl, fun hne => absurd rfl hne⟩
  · have hq := query_explain st o nl P hcd hp
    rw [hq]
    exact ⟨rfl, fun _ => rfl⟩

/-- Witness for C8 amended at a concrete explain response. -/
theorem C8_explain_never_executes_witness :
    call_deepseek (mkChoiceResp "EXPLAIN|ok".data) =
      (some EXPLAIN_KIND, some "ok".data) ∧
    (query initState (mkChoiceResp "EXPLAIN|ok".data) "q".data).executed = false ∧
    ("ok".data ≠ [] →
      query initState (mkChoiceResp "EXPLAIN|ok".data) "q".data =
        ⟨⟨.pnone, none⟩, .answer "ok".data, false⟩) := by
  have h := C8_explain_never_executes initState
    (mkChoiceResp "EXPLAIN|ok".data) "q".data "ok".data (by decide)
  exact ⟨by decide, h.1, h.2⟩

/-- C9 counterexample: a query that fails classification returns early
without touching `last_result`, so a stale result from an earlier query
survives and a subsequent `save` would write the stale data instead of
reporting that there is nothing to save. -/
theorem C9_stale_result_survives :
    (query ⟨.pobj "stale".data, some "old".data⟩ (.netError "e".data)
        "q".data).state.last_result = .pobj "stale".data ∧
    (PyVal.pobj "stale".data ≠ .pnone) ∧
    save_result (query ⟨.pobj "stale".data, some "old".data⟩
        (.netError "e".data) "q".data).state =
      .wroteText (pyStr (.pobj "stale".data)) := by decide

/-- C9 amended: `query` clears `last_result` on an Explain answer and on
an execution-error result, but on an Unrecognized classification it
returns with the state untouched (so a stale previous `last_result`
survives); `save_result` on a `None` result reports no data and writes
no file. -/
theorem C9_state_discipline (st : QState) (o : RemoteOutcome) (nl : List Char) :
    ((query st o nl).display = .queryFailed → (query st o nl).state = st) ∧
    (∀ P, (query st o nl).display = .answer P →
      (query st o nl).state.last_result = .pnone) ∧
    (∀ m, (query st o nl).display = .execError m →
      (query st o nl).state.last_result = .pnone) ∧
    (∀ lq, save_result ⟨.pnone, lq⟩ = .noData) := by
  refine ⟨?_, ?_, ?_, fun lq => rfl⟩
  · intro hd
    rcases query_shape st o nl with
        h | ⟨P, h⟩ | ⟨s, h⟩ | ⟨cols, rows, h⟩ | ⟨v, txt, h⟩ | ⟨m0, h⟩ <;>
      rw [h] at hd ⊢ <;> first | rfl | simp at hd
  · intro P hd
    rcases query_shape st o nl with
        h | ⟨P0, h⟩ | ⟨s, h⟩ | ⟨cols, rows, h⟩ | ⟨v, txt, h⟩ | ⟨m0, h⟩ <;>
      rw [h] at hd ⊢ <;> first | rfl | simp at hd
  · intro m hd
    rcases query_shape st o nl with
        h | ⟨P0, h⟩ | ⟨s, h⟩ | ⟨cols, rows, h⟩ | ⟨v, txt, h⟩ | ⟨m0, h⟩ <;>
      rw [h] at hd ⊢ <;> first | rfl | simp at hd

/-- Witness for C9 amended at a concrete explain answer and error case. -/
theorem C9_state_discipline_witness :
    (query initState (mkChoiceResp "EXPLAIN|hello".data) "q".data).display =
      .answer "hello".data ∧
    (query initState (mkChoiceResp "EXPLAIN|hello".data) "q".data).state.last_result =
      .pnone ∧
    save_result ⟨.pnone, none⟩ = .noData := by
  have h := C9_state_discipline initState (mkChoiceResp "EXPLAIN|hello".data) "q".data
  exact ⟨by decide, h.2.1 "hello".data (by decide), h.2.2.2 none⟩

/-- C10 (confirmed): when a Code query evaluates successfully to a plain
string that contains the substring `出错`, `query` treats it exactly like
an evaluation failure: the error panel shows the string and `last_result`
is reset to `None`. -/
theorem C10_err_marker_string_is_error (st : QState) (o : RemoteOutcome)
    (nl content s : List Char)
    (hcd : call_deepseek o = (some CODE_KIND, some content))
    (hc : content ≠ [])
    (hr : execRun content = .ok (.pstr s))
    (hm : containsSub ERR_MARK s = true) :
    query st o nl = ⟨⟨.pnone, some nl⟩, .execError s, true⟩ := by
  have hex : execute_code content = .ok (.pstr s) := by
    unfold execute_code
    rw [hr]
  exact query_code_err st o nl CODE_KIND content s hcd (by decide) hc
    (by decide) hex hm

/-- Witness for C10: the model returns a string literal containing `出错`;
it evaluates successfully yet is displayed as an execution error. -/
theorem C10_err_marker_string_is_error_witness :
    call_deepseek (mkChoiceResp "CODE|\"有出错\"".data) =
      (some CODE_KIND, some "\"有出错\"".data) ∧
    "\"有出错\"".data ≠ [] ∧
    execRun "\"有出错\"".data = .ok (.pstr "有出错".data) ∧
    containsSub ERR_MARK "有出错".data = true ∧
    query initState (mkChoiceResp "CODE|\"有出错\"".data) "q".data =
      ⟨⟨.pnone, some "q".data⟩, .execError "有出错".data, true⟩ := by
  refine ⟨by decide, by decide, rfl, by decide, ?_⟩
  exact C10_err_marker_string_is_error initState
    (mkChoiceResp "CODE|\"有出错\"".data) "q".data "\"有出错\"".data
    "有出错".data (by decide) (by decide) rfl (by decide)

/-- C2 counterexample: the claim says `execute_code` never raises to its
caller, but its handler is `except Exception`: the expression `exit()`
raises `SystemExit`, a `BaseException` outside the `Exception`
hierarchy, which propagates past the handler to the caller instead of
becoming an error-string result. -/
theorem C2_base_exception_escapes :
    execRun "exit()".data = .error (.baseExc SYSTEM_EXIT_MSG) ∧
    execute_code "exit()".data = .error SYSTEM_EXIT_MSG := ⟨rfl, rfl⟩

/-- C2 amended: every evaluation failure raising an ordinary `Exception`
(undefined name, syntax error, bad call) is caught and returned as the
formatted error string, which is never empty; but a `BaseException`
outside the `Exception` hierarchy (the `SystemExit` of `exit()`/`quit()`)
propagates through `execute_code` to its caller. -/
theorem C2_exception_wrapped_nonempty (code e : List Char) :
    (execRun code = .error (.exc e) →
      execute_code code = .ok (.pstr (EXEC_ERR_HEAD ++ e)) ∧
      EXEC_ERR_HEAD ++ e ≠ []) ∧
    (execRun code = .error (.baseExc e) → execute_code code = .error e) := by
  constructor
  · intro h
    refine ⟨by unfold execute_code; rw [h], ?_⟩
    intro hc
    rw [List.append_eq_nil] at hc
    exact absurd hc.1 (by decide)
  · intro h
    unfold execute_code
    rw [h]

/-- Witness for C2 amended: the undefined name `nope` is wrapped as a
non-empty error string, while `exit()` propagates. -/
theorem C2_exception_wrapped_nonempty_witness :
    (execRun "nope".data =
      .error (.exc (NAME_ERR_HEAD ++ "nope".data ++ NAME_ERR_TAIL)) ∧
     execute_code "nope".data =
      .ok (.pstr (EXEC_ERR_HEAD ++ (NAME_ERR_HEAD ++ "nope".data ++ NAME_ERR_TAIL))) ∧
     EXEC_ERR_HEAD ++ (NAME_ERR_HEAD ++ "nope".data ++ NAME_ERR_TAIL) ≠ []) ∧
    (execRun "exit()".data = .error (.baseExc SYSTEM_EXIT_MSG) ∧
     execute_code "exit()".data = .error SYSTEM_EXIT_MSG) := by
  have h1 := (C2_exception_wrapped_nonempty "nope".data
    (NAME_ERR_HEAD ++ "nope".data ++ NAME_ERR_TAIL)).1 rfl
  have h2 := (C2_exception_wrapped_nonempty "exit()".data SYSTEM_EXIT_MSG).2 rfl
  exact ⟨⟨rfl, h1.1, h1.2⟩, ⟨rfl, h2⟩⟩

/-- C1 counterexample: the identifier `os` — neither the finance-data
handle nor a date/time helper — resolves inside `execute_code`, because
the module globals are passed to `exec`. -/
theorem C1_other_identifier_resolves :
    execute_code "os".data = .ok (.pobj "os".data) ∧
    exec_namespace "os".data = some (.pobj "os".data) ∧
    "os".data ≠ "ak".data ∧ "os".data ≠ "pd".data ∧
    "os".data ≠ "datetime".data := ⟨rfl, by decide⟩

/-- C1 amended: the evaluation namespace is not restricted to the
finance-data handle and date/time helpers: a name resolves iff it is one
of the explicit locals (`ak`, `pd`, `datetime`), any module-level global,
or a builtin — in particular `__import__` resolves, so imports remain
possible. -/
theorem C1_namespace_characterised :
    (∀ n : List Char, (exec_namespace n).isSome = true ↔
      (n ∈ exec_local_names ∨ n ∈ module_global_names ∨ n ∈ builtin_names)) ∧
    (exec_namespace "__import__".data).isSome = true := by
  refine ⟨fun n => ?_, by decide⟩
  unfold exec_namespace
  split_ifs with h1 h2 h3
  · simp only [Option.isSome_some, true_iff]
    exact Or.inl (by simpa using h1)
  · simp only [Option.isSome_some, true_iff]
    exact Or.inr (Or.inl (by simpa using h2))
  · simp only [Option.isSome_some, true_iff]
    exact Or.inr (Or.inr (by simpa using h3))
  · simp only [Option.isSome_none, Bool.false_eq_true, false_iff]
    push_neg
    exact ⟨by simpa using h1, by simpa using h2, by simpa using h3⟩

end DBFP
